import Mathlib

/-!
Verification of the MaTeX compiler core (`src/main.py`, class `MatexCompiler`)
against its natural-language specification.

The embedding below translates the Python source faithfully:

* strings are `String` (lists of characters); Python's `str.find`, slicing
  (including negative end indices), `str.strip`, `str.upper` and `int(...)`
  are modelled by `pyFind`, `pySlice`/`pySliceFrom`, `pyStrip`, `pyUpper`
  and `pyInt`;
* the input stream is the list of its physical lines, and the reader's
  `tell`/`seek` positions are line indices (the only positions the program
  ever seeks to are positions returned by `tell` right after reading a
  line, so byte offsets and line indices are in order-preserving
  bijection on the reachable positions);
* Python's built-in `eval` (used by `MatexCompiler._Executor.eval`) is a
  parameter `pe : PyEval`; `pe code env = some s` models an evaluation
  that returns an object whose `str()` is `s`, and `none` models a raised
  exception.  Concrete theorems instantiate it with `varEval`, the
  restriction of Python `eval` to expressions that are a bare variable
  name (bound name evaluates to its value, anything else raises);
* the possible non-termination of `variable_replace`'s scan (its index can
  move backwards when the saved `j` is stale) and of the dispatch loop is
  handled with a fuel parameter; `none` means "fuel exhausted", a model
  artifact that never occurs in the concrete runs proved below.
-/

/-- Whitespace stripped by Python `str.strip()` (ASCII subset; the inputs
considered contain only spaces). -/
def isWs (c : Char) : Bool := c = ' ' || c = '\t' || c = '\n' || c = '\r'

/-- Models Python `str.strip()`: remove leading and trailing whitespace. -/
def pyStrip (s : String) : String :=
  String.mk (((s.data.dropWhile isWs).reverse.dropWhile isWs).reverse)

/-- Models Python `str.upper()` (ASCII case mapping). -/
def pyUpper (s : String) : String := String.mk (s.data.map Char.toUpper)

/-- `startsWithChars hay needle`: `needle` occurs at the start of `hay`. -/
def startsWithChars : List Char → List Char → Bool
  | _, [] => true
  | [], _ :: _ => false
  | c :: cs, d :: ds => c = d && startsWithChars cs ds

/-- Scan for the first occurrence of `needle`, counting from index `i`. -/
def findAux (needle : List Char) : List Char → Nat → Int
  | [], i => if needle.isEmpty then (i : Int) else -1
  | c :: cs, i =>
    if startsWithChars (c :: cs) needle then (i : Int) else findAux needle cs (i + 1)

/-- Models Python `s.find(sub)`: index of the first occurrence, `-1` if none. -/
def pyFind (s sub : String) : Int := findAux sub.data s.data 0

/-- Normalize a Python slice bound: negative indices count from the end,
and the result is clamped to `[0, n]`. -/
def pyIdx (n : Nat) (i : Int) : Nat :=
  let j := if i < 0 then i + (n : Int) else i
  if j < 0 then 0 else min j.toNat n

/-- Models the Python slice `s[a:b]`. -/
def pySlice (s : String) (a b : Int) : String :=
  let cs := s.data
  String.mk ((cs.take (pyIdx cs.length b)).drop (pyIdx cs.length a))

/-- Models the Python slice `s[a:]`. -/
def pySliceFrom (s : String) (a : Int) : String :=
  pySlice s a (s.data.length : Int)

/-- Value of a nonempty decimal digit string (helper for `pyInt`). -/
def digitsValAux : List Char → Nat → Option Nat
  | [], acc => some acc
  | c :: cs, acc =>
    if c.isDigit then digitsValAux cs (acc * 10 + (c.toNat - 48)) else none

/-- Value of a digit string; `none` when empty or containing a non-digit. -/
def digitsVal : List Char → Option Nat
  | [] => none
  | cs => digitsValAux cs 0

/-- Models Python `int(str)`: strip whitespace, optional sign, decimal
digits; `none` models a raised `ValueError`. -/
def pyInt (s : String) : Option Int :=
  match (pyStrip s).data with
  | '-' :: cs => (digitsVal cs).map (fun n => -(n : Int))
  | '+' :: cs => (digitsVal cs).map (fun n => (n : Int))
  | cs => (digitsVal cs).map (fun n => (n : Int))

/-- The variable environment: the `kwargs` dict of `_parse_v1`
(name → string value). -/
abbrev Env := List (String × String)

/-- Dict lookup. -/
def envGet (e : Env) (k : String) : Option String :=
  (e.find? (fun p => p.1 == k)).map (fun p => p.2)

/-- Dict update `kwargs[k] = v` (replaces any existing binding of `k`). -/
def envSet (k v : String) (e : Env) : Env :=
  (k, v) :: e.filter (fun p => p.1 != k)

/-- Parameter standing for Python's built-in `eval(code, globals, locals)`:
`some s` models a normal return whose `str()` is `s`; `none` models a
raised exception. -/
abbrev PyEval := String → Env → Option String

/-- Python `eval` restricted to expressions that are exactly a bound
variable name: a bound name evaluates to its value, any other expression
raises (models `NameError` for unbound names and `SyntaxError` for
non-name expressions — exactly the behaviours exercised below). -/
def varEval : PyEval := fun code env => envGet env code

/-- Result of `str(...)` of an `_Executor.eval` call together with the
error sink: on an exception the executor itself prints
`invalid python code` through the compiler's error channel and returns
the Python value `False`, whose `str()` is `"False"`
(`MatexCompiler._Executor.eval`, the bare `except` swallows everything). -/
def executorEval (pe : PyEval) (code : String) (env : Env) (errs : List String) :
    String × List String :=
  match pe code env with
  | some s => (s, errs)
  | none => ("False", errs ++ ["invalid python code"])

/-- First index `≥ i` (the second argument) holding `'%'`, scanning `cs`. -/
def firstPctAux : List Char → Nat → Option Nat
  | [], _ => none
  | c :: cs, i => if c = '%' then some i else firstPctAux cs (i + 1)

/-- Value left in `j` by `for j in range(i+1, len(cs)): if cs[j] == '%': break`:
`none` when the range is empty (`j` is not assigned at all), otherwise the
index of the first `'%'` after `i`, or — the loop having run to the end
without `break` — the last index `len - 1` (not `len`: this is the
off-by-one at `variable_replace`'s `if j == len(string)` check). -/
def forJ (cs : List Char) (i : Nat) : Option Nat :=
  if i + 1 < cs.length then
    match firstPctAux (cs.drop (i + 1)) (i + 1) with
    | some k => some k
    | none => some (cs.length - 1)
  else none

/-- Outcome of `variable_replace` (nested in `MatexCompiler._parse_v1`). -/
inductive VROut where
  /-- Normal return of the substituted string. -/
  | ok (res : String) (errs : List String)
  /-- `raise UnmatchedBraces(i)` (in fact unreachable, see `forJ`). -/
  | unmatchedB (col : Nat) (errs : List String)
  /-- `raise InvalidExpression(text)` (unreachable: `_Executor.eval`
  catches every exception internally, so the `except Exception` branch
  around it never fires). -/
  | invalidE (txt : String) (errs : List String)
  /-- `UnboundLocalError`: `j` referenced before assignment (opening `%`
  as the last character, with no previously assigned `j`). -/
  | uboundJ (errs : List String)
  deriving Repr, DecidableEq

/-- The `while i < len(string)` loop of `variable_replace`, with the loop
variables `i`, the last-assigned `j` (`none` = never assigned), the
accumulated `result`, and the error sink.  `fuel` bounds the number of
iterations (`none` = exhausted); the loop can genuinely diverge because
`i = j + 1` can move `i` backwards when `j` is stale. -/
def vrLoop (pe : PyEval) (cs : List Char) (env : Env) :
    Nat → Nat → Option Nat → String → List String → Option VROut
  | 0, _, _, _, _ => none
  | fuel + 1, i, jq, acc, errs =>
    if h : i < cs.length then
      if cs.get ⟨i, h⟩ = '%' then
        match (match forJ cs i with | some j => some j | none => jq) with
        | none => some (.uboundJ errs)
        | some j =>
          if j = cs.length then some (.unmatchedB i errs)
          else
            let r := executorEval pe (String.mk ((cs.take j).drop (i + 1))) env errs
            vrLoop pe cs env fuel (j + 1) (some j) (acc ++ r.1) r.2
      else
        vrLoop pe cs env fuel (i + 1) jq (acc ++ String.mk [cs.get ⟨i, h⟩]) errs
    else some (.ok acc errs)

/-- Split a stripped, nonempty, non-comment line at the first space:
`line.split(' ', 1)` with the `ValueError` fallback
(`MatexCompiler._Reader.readline`). -/
def splitHeadTail (line : String) : String × String :=
  let i := pyFind line " "
  if i < 0 then (pyUpper line, "")
  else (pyUpper (pySlice line 0 i), pySliceFrom line (i + 1))

/-- `MatexCompiler._Reader.readline` on the remaining lines, carrying the
index of the first of them: skip blank and `#` lines, split the first
directive line, and return it with the position just after it; at end of
stream return `none` with the final position. -/
def readNext : List String → Nat → (Option (String × String)) × Nat
  | [], pos => (none, pos)
  | l :: rest, pos =>
    let t := pyStrip l
    if t = "" then readNext rest (pos + 1)
    else if t.data.head? = some '#' then readNext rest (pos + 1)
    else (some (splitHeadTail t), pos + 1)

/-- The Python local `length` in the `CMD` and `ENV` branches: the int `0`
in the no-`OF` branch, a sliced *string* otherwise.  The distinction
matters because `length == 0` in Python is false for the string `"0"`. -/
inductive LenV where
  | int (n : Int)
  | str (s : String)
  deriving Repr, DecidableEq

/-- Python `length == 0`: true only for the int value `0` (a string never
equals an int). -/
def lenIsZeroInt : LenV → Bool
  | .int n => n == 0
  | .str _ => false

/-- Python `int(length)`: identity on the int, `int(str)` on the string. -/
def lenToInt : LenV → Option Int
  | .int n => some n
  | .str s => pyInt s

/-- Python `str(length)` as spliced into the error message. -/
def lenShow : LenV → String
  | .int n => toString n
  | .str s => s

/-- A literal opening brace (written by its code point). -/
def lb : String := "\x7b"

/-- A literal closing brace (written by its code point). -/
def rb : String := "\x7d"

/-- The auto-comment header printed by `_parse_v1` when `autocomment` is
set (`print(..., sep=' ', end='\n\n')`, `VERSION = '1.3.0'`). -/
def autoHeader : String :=
  "% This file is automatically generated by MaTeX version 1.3.0." ++
  " Do not edit it manually.\n\n"

/-- One simple (non-`FOR`, non-`END`) directive of `_parse_v1`, applied to
the already-substituted tail: `.ok frag` is the text appended to the
output buffer by the branch's `_print` call(s) (a trailing newline per
`print`), `.error msg` is a `return self._error(msg)`.  Every slice,
marker offset and format-argument order is as in the source, including
its slips (see the `THM`, `CMD [OF]` and `ENV [OF]` comments). -/
def dispatchSimple (head tail : String) : Except String String :=
  if head = "DEF" then
    let mid := pyFind (pyUpper tail) " TO BE "
    if mid < 0 then .error "`TO BE` key words expected"
    else
      let mac := pyStrip (pySlice tail 0 mid)
      let defin := pyStrip (pySliceFrom tail (mid + 7))
      .ok ("\\def" ++ mac ++ lb ++ defin ++ rb ++ "\n")
  else if head = "CMD" then
    let mid1 := pyFind (pyUpper tail) " TO BE "
    let mid2 := pyFind (pyUpper tail) " OF "
    let mid3 := pyFind (pyUpper tail) " DEFAULT "
    if mid1 < 0 then .error "`TO BE` key words excepted"
    else
      let command := pyStrip (pySlice tail 0 mid1)
      let definition :=
        if mid2 ≥ 0 then pyStrip (pySlice tail (mid1 + 7) mid2)
        else pyStrip (pySliceFrom tail (mid1 + 7))
      -- in the `OF` branch `length` is the *string* `tail[mid2+4:mid3]`
      -- (`mid3` may be `-1`, dropping the final character); in the other
      -- branch it is the *int* `0`.
      let lengthV : LenV :=
        if mid2 ≥ 0 then .str (pyStrip (pySlice tail (mid2 + 4) mid3))
        else .int 0
      if mid3 ≥ 0 ∧ lenIsZeroInt lengthV then
        .error "cannot set default value for a command without parameters"
      else
        let dflt : Option String :=
          if mid3 ≥ 0 then some (pySliceFrom tail (mid3 + 9)) else none
        match lenToInt lengthV with
        | none =>
          .error ("parameter length should be an integer (got \"" ++
            lenShow lengthV ++ "\" instead)")
        | some n =>
          if n < 0 then
            .error ("parameter length should be non-negative (got " ++
              toString n ++ " instead)")
          else
            match dflt with
            | none =>
              .ok ("\\newcommand" ++ lb ++ command ++ rb ++ "[" ++ toString n ++
                "]" ++ lb ++ definition ++ rb ++ "\n")
            | some d =>
              .ok ("\\newcommand" ++ lb ++ command ++ rb ++ "[" ++ toString n ++
                "][" ++ d ++ "]" ++ lb ++ definition ++ rb ++ "\n")
  else if head = "PAC" then
    -- the only marker searched case-sensitively in the source
    let mid := pyFind tail " OPTION "
    if mid < 0 then .ok ("\\usepackage" ++ lb ++ pyStrip tail ++ rb ++ "\n")
    else
      .ok ("\\usepackage[" ++ pyStrip (pySliceFrom tail (mid + 8)) ++ "]" ++
        lb ++ pyStrip (pySlice tail 0 mid) ++ rb ++ "\n")
  else if head = "ENV" then
    let mid1 := pyFind (pyUpper tail) " PRE "
    let mid2 := pyFind (pyUpper tail) " POST "
    let mid3 := pyFind (pyUpper tail) " OF "
    let mid4 := pyFind (pyUpper tail) " DEFAULT "
    if mid1 < 0 then .error "`PRE` key word expected"
    else if mid2 < 0 then .error "`POST` key word expected"
    else
      let environment := pyStrip (pySlice tail 0 mid1)
      let pre := pyStrip (pySlice tail (mid1 + 5) mid2)
      let cont : String → LenV → Option String → Except String String :=
        fun post lengthV dflt =>
          match lenToInt lengthV with
          | none =>
            .error ("parameter length should be an integer (got \"" ++
              lenShow lengthV ++ "\" instead)")
          | some n =>
            if n < 0 then
              .error ("parameter length should be non-negative (got " ++
                toString n ++ " instead)")
            else
              match dflt with
              | none =>
                .ok ("\\newenvironment" ++ lb ++ environment ++ rb ++ "[" ++
                  toString n ++ "]" ++ lb ++ pre ++ rb ++ lb ++ post ++ rb ++ "\n")
              | some d =>
                .ok ("\\newenvironment" ++ lb ++ environment ++ rb ++ "[" ++
                  toString n ++ "][" ++ d ++ "]" ++ lb ++ pre ++ rb ++ lb ++
                  post ++ rb ++ "\n")
      if mid3 < 0 ∧ mid4 < 0 then
        cont (pyStrip (pySliceFrom tail (mid2 + 6))) (.int 0) none
      else if mid3 ≥ 0 ∧ mid4 < 0 then
        -- source slip: `length` re-slices `tail[mid2+6:mid3]` — the POST
        -- field — instead of the OF field `tail[mid3+4:]`
        cont (pyStrip (pySlice tail (mid2 + 6) mid3))
          (.str (pyStrip (pySlice tail (mid2 + 6) mid3))) none
      else if mid3 < 0 ∧ mid4 ≥ 0 then
        .error "cannot set default value for an environment without parameters"
      else
        cont (pyStrip (pySlice tail (mid2 + 6) mid3))
          (.str (pyStrip (pySlice tail (mid3 + 4) mid4)))
          (some (pyStrip (pySliceFrom tail (mid4 + 8))))
  else if head = "THM" then
    let mid1 := pyFind (pyUpper tail) " COUNTER "
    let mid2 := pyFind (pyUpper tail) " NAME "
    let mid3 := pyFind (pyUpper tail) " UNDER "
    let mid4 := pyFind (pyUpper tail) " STYLE "
    if mid2 < 0 then .error "`NAME` key word expected"
    else
      let thmCounter : String × Option String :=
        if mid1 < 0 then (pyStrip (pySlice tail 0 mid2), none)
        else (pyStrip (pySlice tail 0 mid1), some (pyStrip (pySlice tail (mid1 + 9) mid2)))
      let nus : String × Option String × Option String :=
        if mid3 < 0 ∧ mid4 < 0 then
          (pyStrip (pySliceFrom tail (mid2 + 5)), none, none)
        else if mid3 ≥ 0 ∧ mid4 < 0 then
          (pyStrip (pySlice tail (mid2 + 5) mid3),
            some (pyStrip (pySliceFrom tail (mid3 + 6))), none)
        else if mid3 < 0 ∧ mid4 ≥ 0 then
          (pyStrip (pySlice tail (mid2 + 5) mid4), none,
            some (pyStrip (pySliceFrom tail (mid4 + 7))))
        else
          (pyStrip (pySlice tail (mid2 + 5) mid3),
            some (pyStrip (pySlice tail (mid3 + 6) mid4)),
            some (pyStrip (pySliceFrom tail (mid4 + 7))))
      let stylePart : String :=
        match nus.2.2 with
        | some st => "\\theoremstyle" ++ lb ++ st ++ rb   -- printed with end=''
        | none => ""
      -- format-argument order exactly as in the source: in the two
      -- `counter is not None` branches the tuple is
      -- `(theorem, name, counter[, under])`, so `name` lands in the
      -- bracket group and `counter` in the brace group
      let body : String :=
        match thmCounter.2, nus.2.1 with
        | none, none =>
          "\\newtheorem" ++ lb ++ thmCounter.1 ++ rb ++ lb ++ nus.1 ++ rb
        | none, some u =>
          "\\newtheorem" ++ lb ++ thmCounter.1 ++ rb ++ lb ++ nus.1 ++ rb ++
            "[" ++ u ++ "]"
        | some c, none =>
          "\\newtheorem" ++ lb ++ thmCounter.1 ++ rb ++ "[" ++ nus.1 ++ "]" ++
            lb ++ c ++ rb
        | some c, some u =>
          "\\newtheorem" ++ lb ++ thmCounter.1 ++ rb ++ "[" ++ nus.1 ++ "]" ++
            lb ++ c ++ rb ++ "[" ++ u ++ "]"
      .ok (stylePart ++ body ++ "\n")
  else if head = "RAW" then .ok (pyStrip tail ++ "\n")
  else if head = "COM" then .ok ("% " ++ tail ++ "\n")
  else .error ("unexpected tag `" ++ head ++ "`")

/-- Observable compiler state at a return point: the reader position, the
output buffer (`MatexCompiler._output`, one string in emission order) and
the error diagnostics printed so far (message bodies, in order). -/
structure St where
  pos : Nat
  out : String
  errs : List String
  deriving Repr, DecidableEq

/-- Outcome of a `_parse_v1` invocation. -/
inductive POut where
  /-- The function returned the boolean `b`. -/
  | ret (b : Bool) (st : St)
  /-- An uncaught exception (`UnboundLocalError` from `variable_replace`)
  propagated out of the invocation. -/
  | crash (st : St)
  deriving Repr, DecidableEq

/-- Outcome of the `for value in values:` loop in the `FOR` branch. -/
inductive FOut where
  /-- All iterations returned `True`; `cur` is the reader position after
  the last one (the loop start when there were no iterations), `env` the
  frame's `kwargs` with the loop variable's last binding. -/
  | done (cur : Nat) (env : Env) (out : String) (errs : List String)
  /-- Some iteration returned `False`: `return False`. -/
  | fail (st : St)
  /-- Some iteration crashed; the exception propagates. -/
  | boom (st : St)
  deriving Repr, DecidableEq

/-- The `for value in values:` loop of the `FOR` branch: for each
character, seek back to `loopStart`, bind the loop variable, and run the
recursive `_parse_v1` (passed in as `recur`, already applied to its
fuel). -/
def runIter (recur : Nat → Env → String → List String → Option POut)
    (loopStart : Nat) (var : String) :
    List Char → Nat → Env → String → List String → Option FOut
  | [], cur, env, out, errs => some (.done cur env out errs)
  | v :: rest, _, env, out, errs =>
    let env1 := envSet var (String.mk [v]) env
    match recur loopStart env1 out errs with
    | none => none
    | some (.ret true st) => runIter recur loopStart var rest st.pos env1 st.out st.errs
    | some (.ret false st) => some (.fail st)
    | some (.crash st) => some (.boom st)

/-- `MatexCompiler._parse_v1`: the dispatch loop over the line stream.
Arguments after the fuel: the `autocomment` flag (false in every recursive
call), the reader position, the frame's `kwargs`, the output buffer and
the diagnostics so far.  One unit of fuel per directive line processed;
the same fuel also bounds `variable_replace`'s scan. -/
def parseV1 (pe : PyEval) (lines : List String) :
    Nat → Bool → Nat → Env → String → List String → Option POut
  | 0, _, _, _, _, _ => none
  | fuel + 1, auto, pos, env, out, errs =>
    let out1 := if auto then out ++ autoHeader else out
    match readNext (lines.drop pos) pos with
    | (none, p) => some (.ret true ⟨p, out1, errs⟩)
    | (some (head, tail), p) =>
      match vrLoop pe tail.data env (fuel + 1) 0 none "" errs with
      | none => none
      | some (.uboundJ errs1) => some (.crash ⟨p, out1, errs1⟩)
      | some (.unmatchedB i errs1) =>
        some (.ret false ⟨p, out1, errs1 ++ ["unmatched `%` at column " ++ toString i]⟩)
      | some (.invalidE t errs1) =>
        some (.ret false ⟨p, out1, errs1 ++ ["invalid expression `" ++ t ++ "`"]⟩)
      | some (.ok tail1 errs1) =>
        if head = "FOR" then
          let mid := pyFind (pyUpper tail1) " IN "
          if mid < 0 then
            some (.ret false ⟨p, out1, errs1 ++ ["`IN` key word expected"]⟩)
          else
            let var := pyStrip (pySlice tail1 0 mid)
            let vals := pyStrip (pySliceFrom tail1 (mid + 4))
            match runIter (fun q e o er => parseV1 pe lines fuel false q e o er)
                p var vals.data p env out1 errs1 with
            | none => none
            | some (.done cur env2 out2 errs2) =>
              parseV1 pe lines fuel false cur env2 out2 errs2
            | some (.fail st) => some (.ret false st)
            | some (.boom st) => some (.crash st)
        else if head = "END" then some (.ret true ⟨p, out1, errs1⟩)
        else
          match dispatchSimple head tail1 with
          | .error msg => some (.ret false ⟨p, out1, errs1 ++ [msg]⟩)
          | .ok frag => parseV1 pe lines fuel false p env (out1 ++ frag) errs1

/-- `MatexCompiler.compile`: read the mandatory `VERSION` header, then run
`_parse_v1` on the rest.  The input stream is given as its list of
physical lines. -/
def compileM (pe : PyEval) (lines : List String) (autocomment : Bool)
    (fuel : Nat) : Option POut :=
  match readNext lines 0 with
  | (none, p) => some (.ret false ⟨p, "", ["version not specified"]⟩)
  | (some (head, tail), p) =>
    if head ≠ "VERSION" then
      some (.ret false ⟨p, "", ["version not specified at the head of file"]⟩)
    else
      match pyInt tail with
      | none =>
        some (.ret false
          ⟨p, "", ["version should be an integer (got \"" ++ tail ++ "\" instead)"]⟩)
      | some v =>
        if v = 1 then parseV1 pe lines fuel autocomment p [] "" []
        else some (.ret false ⟨p, "", ["unknown version " ++ toString v]⟩)

/-- `MatexCompiler.finish`: drain the whole output buffer to the
destination and reset it — returns (text written, new buffer). -/
def finish (buf : String) : String × String := (buf, "")

/-- The boolean a finished `compileM` run returned (`false` also for a
crash or exhausted fuel). -/
def compileSuccess (r : Option POut) : Bool :=
  match r with
  | some (.ret true _) => true
  | _ => false

/-- The output buffer at the end of a run, when the run finished. -/
def resultOut : Option POut → Option String
  | some (.ret _ st) => some st.out
  | some (.crash st) => some st.out
  | none => none

/-- `MatexCompiler._Executor._upperlower`, the built-in text transform
registered as `upperlower` in the executor's globals: the loop over the
characters with the boolean `upper` flag, transliterated from the source
(`if char == ' '` / `elif char == char.upper() and not upper` /
`elif char == char.lower() and upper`, then `result += char.upper()`,
and a trailing `\normalsize ` after the loop). -/
def upperlowerGo : List Char → Bool → String
  | [], _ => "\\normalsize "
  | c :: rest, upper =>
    if c = ' ' then String.mk [c] ++ upperlowerGo rest upper
    else if c = c.toUpper ∧ upper = false then
      "\\normalsize " ++ String.mk [c.toUpper] ++ upperlowerGo rest true
    else if c = c.toLower ∧ upper = true then
      "\\footnotesize " ++ String.mk [c.toUpper] ++ upperlowerGo rest false
    else String.mk [c.toUpper] ++ upperlowerGo rest upper

/-- `upperlower(string)`: flag starts as `upper = True`. -/
def upperlower (s : String) : String := upperlowerGo s.data true

/-- The size flag of spec §4.2. -/
inductive SizeFlag where
  | full
  | reduced
  deriving Repr, DecidableEq

/-- The `emphasize_case` algorithm exactly as worded in spec §4.2 (the
comparison definition for the refinement claim C8): a space is copied
unchanged without touching the flag; a character equal to its uppercase
form with the flag `reduced` emits `\normalsize ` and sets `full`; else
one equal to its lowercase form with the flag `full` emits
`\footnotesize ` and sets `reduced`; in all non-space cases the
character's uppercase form is emitted; after the loop a trailing
`\normalsize ` is appended unconditionally. -/
def emphasizeCaseGo : List Char → SizeFlag → String
  | [], _ => "\\normalsize "
  | c :: rest, flag =>
    if c = ' ' then String.mk [c] ++ emphasizeCaseGo rest flag
    else if c = c.toUpper ∧ flag = SizeFlag.reduced then
      "\\normalsize " ++ String.mk [c.toUpper] ++ emphasizeCaseGo rest SizeFlag.full
    else if c = c.toLower ∧ flag = SizeFlag.full then
      "\\footnotesize " ++ String.mk [c.toUpper] ++ emphasizeCaseGo rest SizeFlag.reduced
    else String.mk [c.toUpper] ++ emphasizeCaseGo rest flag

/-- `emphasize_case(text)`: the flag is initialized to `full`. -/
def emphasizeCase (s : String) : String := emphasizeCaseGo s.data SizeFlag.full

/-- The `upper` boolean of the source tracks the spec's size flag:
`True` is `full`, `False` is `reduced`. -/
def flagOfBool (b : Bool) : SizeFlag := if b then SizeFlag.full else SizeFlag.reduced

/-- The two renderings agree step by step. -/
lemma upperlowerGo_eq (cs : List Char) :
    ∀ b, upperlowerGo cs b = emphasizeCaseGo cs (flagOfBool b) := by
  induction cs with
  | nil => intro b; cases b <;> rfl
  | cons c rest ih =>
    intro b
    have ihF : upperlowerGo rest false = emphasizeCaseGo rest SizeFlag.reduced := ih false
    have ihT : upperlowerGo rest true = emphasizeCaseGo rest SizeFlag.full := ih true
    cases b <;> simp [upperlowerGo, emphasizeCaseGo, flagOfBool, ihF, ihT]

/-- Claim C8: for every input string, the built-in text transform
`upperlower` returns exactly the string produced by the spec §4.2
`emphasize_case` algorithm (size flag initialized to full, spaces copied
untouched, `\normalsize `/`\footnotesize ` emitted on case transitions,
every non-space character emitted uppercased, trailing `\normalsize `). -/
theorem upperlower_eq_emphasize_case (s : String) :
    upperlower s = emphasizeCase s :=
  upperlowerGo_eq s.data true

/-- Claim C1 (code bug): on `THM lem COUNTER thm NAME Lemma UNDER section`
the compiler succeeds but emits `\newtheorem{lem}[Lemma]{thm}[section]`
— the title in the bracket group and the counter in the brace group —
instead of the specified `\newtheorem{lem}[thm]{Lemma}[section]`: the
source's format tuple `(theorem, name, counter, under)` swaps the name
and counter fields. -/
theorem thm_counter_under_output_swapped :
    compileM varEval ["VERSION 1", "THM lem COUNTER thm NAME Lemma UNDER section"] false 100
      = some (POut.ret true ⟨2, "\\newtheorem\x7blem\x7d[Lemma]\x7bthm\x7d[section]\n", []⟩)
    ∧ "\\newtheorem\x7blem\x7d[Lemma]\x7bthm\x7d[section]\n"
      ≠ "\\newtheorem\x7blem\x7d[thm]\x7bLemma\x7d[section]\n" :=
  ⟨by decide, by decide⟩

/-- Claim C2 (counterexample): an unterminated `FOR` block yields a
successful compile — `VERSION 1` / `FOR x IN ab` / `RAW %x%` with no
`END` returns success, refuting "an unterminated FOR block never yields a
successful compile". -/
theorem unterminated_for_compiles_successfully :
    compileSuccess (compileM varEval ["VERSION 1", "FOR x IN ab", "RAW %x%"] false 100)
      = true := by
  decide

/-- Claim C2 (amended): a recursive dispatch invocation that reaches end
of the input stream returns success — there is no missing-`END` error —
so an unterminated `FOR` block compiles successfully, each iteration's
body running to end of stream; on `VERSION 1` / `FOR x IN ab` /
`RAW %x%` the compile succeeds with output `a`, `b`. -/
theorem dispatch_at_eof_returns_success :
    (∀ (pe : PyEval) (lines : List String) (fuel pos : Nat) (env : Env)
        (out : String) (errs : List String), lines.length ≤ pos →
      parseV1 pe lines (fuel + 1) false pos env out errs
        = some (POut.ret true ⟨pos, out, errs⟩))
    ∧ compileM varEval ["VERSION 1", "FOR x IN ab", "RAW %x%"] false 100
        = some (POut.ret true ⟨3, "a\nb\n", []⟩) := by
  constructor
  · intro pe lines fuel pos env out errs h
    have hd : lines.drop pos = [] := List.drop_eq_nil_of_le h
    simp [parseV1, hd, readNext]
  · decide

/-- Witness for the hypothesis of `dispatch_at_eof_returns_success`,
instantiated at a concrete position past the end of a one-line input. -/
theorem dispatch_at_eof_returns_success_witness :
    parseV1 varEval ["VERSION 1"] 3 false 1 [] "" [] = some (POut.ret true ⟨1, "", []⟩) :=
  dispatch_at_eof_returns_success.1 varEval ["VERSION 1"] 2 1 [] "" [] (by decide)

/-- Claim C3 (counterexample): on `VERSION 1` / `RAW hello` / `CMD foo`
the compile fails (the `CMD` lacks `TO BE`), yet the Output Buffer is not
empty at the failure — it still holds the fragment emitted by the earlier
successful `RAW` directive. -/
theorem failed_compile_buffer_nonempty :
    compileSuccess (compileM varEval ["VERSION 1", "RAW hello", "CMD foo"] false 100) = false
    ∧ resultOut (compileM varEval ["VERSION 1", "RAW hello", "CMD foo"] false 100)
      ≠ some "" :=
  ⟨by decide, by decide⟩

/-- Claim C3 (amended): the failing directive itself emits nothing, but at
the moment of failure the Output Buffer retains exactly the fragments of
the previously successful directives, and a subsequent `finish` writes
them (partial output) — here `hello\n` from the `RAW` line before the
failing `CMD`. -/
theorem failed_compile_retains_prior_fragments :
    compileM varEval ["VERSION 1", "RAW hello", "CMD foo"] false 100
      = some (POut.ret false ⟨3, "hello\n", ["`TO BE` key words excepted"]⟩)
    ∧ (finish "hello\n").1 = "hello\n" :=
  ⟨by decide, by decide⟩

/-- Claim C4 (code bug): on `RAW a%y%b` with `y` unbound the failed
evaluation is reported (`invalid python code` on the error sink) but the
compile does not abort: `_Executor.eval` swallows the exception and
returns the value `False`, whose string form is spliced into the output,
and the run returns success with output `aFalseb`. -/
theorem invalid_expression_reported_but_not_fatal :
    compileM varEval ["VERSION 1", "RAW a%y%b"] false 100
      = some (POut.ret true ⟨2, "aFalseb\n", ["invalid python code"]⟩) := by
  decide

/-- Claim C5 (code bug): a tail `abc%def` whose opening `%` at column 3 is
never closed does not fail with an unmatched-delimiter error: the scan's
`j == len(string)` check is off by one (the loop leaves `j = len - 1`),
so the text `de` (up to that `j`, dropping the final character) is
evaluated as the expression and compilation continues successfully. -/
theorem unclosed_percent_not_an_error :
    vrLoop varEval "abc%def".data [] 100 0 none "" []
      = some (VROut.ok "abcFalse" ["invalid python code"])
    ∧ compileM varEval ["VERSION 1", "RAW abc%def"] false 100
      = some (POut.ret true ⟨2, "abcFalse\n", ["invalid python code"]⟩) :=
  ⟨by decide, by decide⟩

/-- Claim C6 (code bug): on the tail `%` — an opening `%` as the final
character — the scan's inner `for j in range(i+1, len)` never runs, `j`
is referenced unassigned, and the resulting `UnboundLocalError` is caught
nowhere: it escapes `compile` to the caller instead of a boolean being
returned. -/
theorem lone_trailing_percent_crashes_compile :
    compileM varEval ["VERSION 1", "RAW %"] false 100
      = some (POut.crash ⟨2, "", []⟩) := by
  decide

/-- Claim C7: `FOR` iterates its literal one character at a time — the
source `VERSION 1` / `FOR x IN ab` / `RAW %x%` / `END` compiles
successfully and outputs exactly the two fragments `a` then `b`, in that
order. -/
theorem for_iterates_characters :
    compileM varEval ["VERSION 1", "FOR x IN ab", "RAW %x%", "END"] false 100
      = some (POut.ret true ⟨4, "a\nb\n", []⟩) := by
  decide

/-- Claim C9 (code bug): `CMD foo TO BE bar OF 0 DEFAULT x` — a `DEFAULT`
with parameter count 0 — is accepted and emits
`\newcommand{foo}[0][x]{bar}`: the guard `length == 0` compares the
*string* `"0"` with the int `0`, which is false in Python, so only the
`OF`-absent case (second conjunct) raises the
cannot-set-default-for-a-command-without-parameters error. -/
theorem cmd_default_with_of_zero_accepted :
    compileM varEval ["VERSION 1", "CMD foo TO BE bar OF 0 DEFAULT x"] false 100
      = some (POut.ret true ⟨2, "\\newcommand\x7bfoo\x7d[0][x]\x7bbar\x7d\n", []⟩)
    ∧ compileM varEval ["VERSION 1", "CMD foo TO BE bar DEFAULT x"] false 100
      = some (POut.ret false
          ⟨2, "", ["cannot set default value for a command without parameters"]⟩) :=
  ⟨by decide, by decide⟩

/-- Claim C10 (code bug): for `ENV ... OF n` without `DEFAULT` the source
assigns `length` from the POST slice `tail[mid2+6:mid3]` instead of the
OF slice, so `ENV box PRE a POST b OF 1` fails with a malformed-integer
error on `b`, and `ENV box PRE a POST 3 OF 7` emits
`\newenvironment{box}[3]{a}{3}` — the parameter count comes from the
POST field, not from the OF field as specified. -/
theorem env_of_count_taken_from_post_field :
    compileM varEval ["VERSION 1", "ENV box PRE a POST b OF 1"] false 100
      = some (POut.ret false
          ⟨2, "", ["parameter length should be an integer (got \"b\" instead)"]⟩)
    ∧ compileM varEval ["VERSION 1", "ENV box PRE a POST 3 OF 7"] false 100
      = some (POut.ret true ⟨2, "\\newenvironment\x7bbox\x7d[3]\x7ba\x7d\x7b3\x7d\n", []⟩) :=
  ⟨by decide, by decide⟩

/-- Witness for `upperlower_eq_emphasize_case` at a concrete string with a
case transition in each direction. -/
theorem upperlower_eq_emphasize_case_witness :
    upperlower "Ab C" = emphasizeCase "Ab C" :=
  upperlower_eq_emphasize_case "Ab C"
